import Mathlib

/-!
Shallow embedding of the `helix-stress-test` load-generation engine and its
metrics aggregator, translated from the Go sources:

* `internal/metrics` (the unnamed source file `part_001`): the `Metrics`
  collector, its `RecordRequest`, `RecordError`, `Snapshot`, `Reset`
  operations and the `percentile` helper.
* `internal/runner/runner.go`: `ParseEndpoint`, the pacing `worker`,
  `getRandomID`, `getDeleteID`, `runLoadTest`, `runEnduranceTest` and the
  spike burst controller `runSpikes`.

Modelling conventions:

* Go `int64` / `time.Duration` values are modelled as `Int` (no claim here
  exercises 64-bit overflow); times are absolute nanosecond counts and
  `time.Second = 1000000000`.
* Go `float64` arithmetic (the percentile index `int(float64(len)*p)` and
  the error-rate percentage) is modelled over `ℚ`; for the four percentile
  arguments 0.50, 0.95, 0.99, 0.999 the `float64` truncation agrees with
  the exact rational floor on every list length checked (up to 2·10^6).
* The Go `map[int]int64` is modelled as a total function `Int → Int`
  defaulting to 0, which is exactly Go's read-of-missing-key semantics.
* Wall-clock reads (`time.Now`) become explicit `now` parameters; the
  memory/GC statistics of a snapshot are environment introspection and are
  omitted, as no claim mentions them.
-/

/-- State of the `Metrics` collector (Go struct `Metrics`, metrics source
file): running counters, the latency sequence, the per-status error map and
the rolling-second throughput fields. -/
structure MetricsState where
  totalRequests : Int
  successRequests : Int
  errorRequests : Int
  latencies : List Int
  errorsByStatus : Int → Int
  startTime : Int
  lastSecond : Int
  requestsThisSecond : Int
  currentRPS : Int

namespace MetricsState

/-- Go `metrics.New()`: fresh collector with zero counters, empty latency
slice, empty error map, and both timestamps set to the current time. -/
def new (now : Int) : MetricsState where
  totalRequests := 0
  successRequests := 0
  errorRequests := 0
  latencies := []
  errorsByStatus := fun _ => 0
  startTime := now
  lastSecond := now
  requestsThisSecond := 0
  currentRPS := 0

/-- Go `(*Metrics).RecordRequest(latency, statusCode)`: increments the total,
classifies the status code as success (200 ≤ code < 400) or error (also
bumping the per-status map), appends the latency, then updates the
rolling-second throughput counter using the current time `now`. -/
def RecordRequest (m : MetricsState) (latency statusCode now : Int) : MetricsState :=
  let m1 := { m with totalRequests := m.totalRequests + 1 }
  let m2 :=
    if 200 ≤ statusCode ∧ statusCode < 400 then
      { m1 with successRequests := m1.successRequests + 1 }
    else
      { m1 with
        errorRequests := m1.errorRequests + 1
        errorsByStatus := fun k =>
          if k = statusCode then m1.errorsByStatus k + 1 else m1.errorsByStatus k }
  let m3 := { m2 with latencies := m2.latencies ++ [latency] }
  if 1000000000 ≤ now - m3.lastSecond then
    { m3 with
      currentRPS := m3.requestsThisSecond
      requestsThisSecond := 0
      lastSecond := now }
  else
    { m3 with requestsThisSecond := m3.requestsThisSecond + 1 }

/-- Go `(*Metrics).RecordError(statusCode)`: increments the error counter and
the per-status map entry.  Note that the Go method touches neither
`totalRequests` nor `successRequests` nor the latency slice. -/
def RecordError (m : MetricsState) (statusCode : Int) : MetricsState :=
  { m with
    errorRequests := m.errorRequests + 1
    errorsByStatus := fun k =>
      if k = statusCode then m.errorsByStatus k + 1 else m.errorsByStatus k }

/-- Go `(*Metrics).Reset()`: zeroes the counters, empties the latency slice
and the error map, and restamps both timestamps with the current time. -/
def Reset (m : MetricsState) (now : Int) : MetricsState :=
  { m with
    totalRequests := 0
    successRequests := 0
    errorRequests := 0
    latencies := []
    errorsByStatus := fun _ => 0
    startTime := now
    lastSecond := now
    requestsThisSecond := 0
    currentRPS := 0 }

end MetricsState

/-- Go `percentile(sorted, p)` (metrics source file): nearest-rank percentile.
Returns 0 on an empty slice; otherwise indexes at `int(float64(len)*p)`
clamped to the last valid index.  The `float64` product/truncation is
modelled by the exact rational floor. -/
def percentile (sorted : List Int) (p : ℚ) : Int :=
  if sorted.length = 0 then 0
  else
    let index := (⌊(sorted.length : ℚ) * p⌋).toNat
    let index := if sorted.length ≤ index then sorted.length - 1 else index
    sorted.getD index 0

/-- The pure fields of the Go `Snapshot` struct.  Wall-clock and memory/GC
fields are omitted (environment introspection, not touched by any claim). -/
structure Snapshot where
  TotalRequests : Int
  SuccessRequests : Int
  ErrorRequests : Int
  CurrentRPS : Int
  LatencyP50 : Int
  LatencyP95 : Int
  LatencyP99 : Int
  LatencyP999 : Int
  LatencyMin : Int
  LatencyMax : Int
  LatencyMean : Int
  ErrorsByStatus : Int → Int
  ErrorRate : ℚ

/-- Go `(*Metrics).Snapshot()`: copies the counters, latency slice and error
map, sorts the latencies ascending, and derives min / max / mean, the four
nearest-rank percentiles and the error-rate percentage, guarding the
latency-derived fields by `len > 0` and the rate by `total > 0`. -/
def MetricsState.snapshot (m : MetricsState) : Snapshot :=
  let total := m.totalRequests
  let errors := m.errorRequests
  let lats := m.latencies
  let sorted := List.insertionSort (fun a b : Int => a ≤ b) lats
  { TotalRequests := total
    SuccessRequests := m.successRequests
    ErrorRequests := errors
    CurrentRPS := m.currentRPS
    LatencyP50 := if 0 < lats.length then percentile sorted (1 / 2) else 0
    LatencyP95 := if 0 < lats.length then percentile sorted (19 / 20) else 0
    LatencyP99 := if 0 < lats.length then percentile sorted (99 / 100) else 0
    LatencyP999 := if 0 < lats.length then percentile sorted (999 / 1000) else 0
    LatencyMin := if 0 < lats.length then sorted.getD 0 0 else 0
    LatencyMax := if 0 < lats.length then sorted.getD (sorted.length - 1) 0 else 0
    LatencyMean :=
      if 0 < lats.length then Int.tdiv (sorted.foldl (· + ·) 0) (sorted.length : Int) else 0
    ErrorsByStatus := m.errorsByStatus
    ErrorRate := if 0 < total then (errors : ℚ) / (total : ℚ) * 100 else 0 }

/-- One recording operation hitting the collector: either the executor's
success path `RecordRequest` (with its wall-clock read) or the failure path
`RecordError`. -/
inductive Op where
  | recordRequest (latency statusCode now : Int)
  | recordError (statusCode : Int)

/-- Applies one recording operation to the collector state. -/
def applyOp (m : MetricsState) : Op → MetricsState
  | .recordRequest latency statusCode now => m.RecordRequest latency statusCode now
  | .recordError statusCode => m.RecordError statusCode

/-- Applies a whole sequence of recording operations, left to right. -/
def applyOps (m : MetricsState) (ops : List Op) : MetricsState :=
  ops.foldl applyOp m

/-- Number of `RecordError` calls in a sequence of recording operations. -/
def numRecordError : List Op → Int
  | [] => 0
  | .recordError _ :: rest => numRecordError rest + 1
  | .recordRequest _ _ _ :: rest => numRecordError rest

section MetricsLemmas

variable (m : MetricsState) (l c t k : Int)

/-- One `RecordRequest` call bumps the total by exactly one. -/
theorem RecordRequest_totalRequests :
    (m.RecordRequest l c t).totalRequests = m.totalRequests + 1 := by
  by_cases h : 200 ≤ c ∧ c < 400 <;> simp [MetricsState.RecordRequest, h] <;>
    split <;> simp

/-- One `RecordRequest` call bumps the success counter exactly on 2xx/3xx. -/
theorem RecordRequest_successRequests :
    (m.RecordRequest l c t).successRequests
      = m.successRequests + (if 200 ≤ c ∧ c < 400 then 1 else 0) := by
  by_cases h : 200 ≤ c ∧ c < 400 <;> simp [MetricsState.RecordRequest, h] <;>
    split <;> simp

/-- One `RecordRequest` call bumps the error counter exactly off 2xx/3xx. -/
theorem RecordRequest_errorRequests :
    (m.RecordRequest l c t).errorRequests
      = m.errorRequests + (if 200 ≤ c ∧ c < 400 then 0 else 1) := by
  by_cases h : 200 ≤ c ∧ c < 400 <;> simp [MetricsState.RecordRequest, h] <;>
    split <;> simp

/-- One `RecordRequest` call appends the latency to the latency sequence. -/
theorem RecordRequest_latencies :
    (m.RecordRequest l c t).latencies = m.latencies ++ [l] := by
  by_cases h : 200 ≤ c ∧ c < 400 <;> simp [MetricsState.RecordRequest, h] <;>
    split <;> simp

/-- Pointwise effect of one `RecordRequest` call on the per-status error map. -/
theorem RecordRequest_errorsByStatus :
    (m.RecordRequest l c t).errorsByStatus k
      = m.errorsByStatus k + (if ¬(200 ≤ c ∧ c < 400) ∧ k = c then 1 else 0) := by
  by_cases h : 200 ≤ c ∧ c < 400 <;> by_cases hk : k = c <;>
    simp [MetricsState.RecordRequest, h, hk] <;> split <;> simp [hk]

/-- `RecordError` bumps the error counter by exactly one. -/
theorem RecordError_errorRequests :
    (m.RecordError c).errorRequests = m.errorRequests + 1 := rfl

/-- `RecordError` leaves the total untouched. -/
theorem RecordError_totalRequests :
    (m.RecordError c).totalRequests = m.totalRequests := rfl

/-- `RecordError` leaves the success counter untouched. -/
theorem RecordError_successRequests :
    (m.RecordError c).successRequests = m.successRequests := rfl

/-- `RecordError` leaves the latency sequence untouched. -/
theorem RecordError_latencies :
    (m.RecordError c).latencies = m.latencies := rfl

/-- Pointwise effect of `RecordError` on the per-status error map. -/
theorem RecordError_errorsByStatus :
    (m.RecordError c).errorsByStatus k
      = m.errorsByStatus k + (if k = c then 1 else 0) := by
  by_cases hk : k = c <;> simp [MetricsState.RecordError, hk]

end MetricsLemmas

/-- Running balance of the three counters along any operation sequence: each
`RecordRequest` moves total and (success or error) together, while each
`RecordError` moves only the error counter. -/
theorem applyOps_balance (ops : List Op) : ∀ m : MetricsState,
    (applyOps m ops).successRequests + (applyOps m ops).errorRequests
        - (applyOps m ops).totalRequests
      = m.successRequests + m.errorRequests - m.totalRequests + numRecordError ops := by
  induction ops with
  | nil => intro m; simp [applyOps, numRecordError]
  | cons op rest ih =>
    intro m
    have hfold : applyOps m (op :: rest) = applyOps (applyOp m op) rest := rfl
    rw [hfold, ih (applyOp m op)]
    cases op with
    | recordRequest l c t =>
      simp only [applyOp, RecordRequest_totalRequests, RecordRequest_successRequests,
        RecordRequest_errorRequests, numRecordError]
      split <;> ring
    | recordError c =>
      simp only [applyOp, RecordError_totalRequests, RecordError_successRequests,
        RecordError_errorRequests, numRecordError]
      ring

/-- Projection of a snapshot's total onto the collector state. -/
@[simp] theorem snapshot_TotalRequests (m : MetricsState) :
    m.snapshot.TotalRequests = m.totalRequests := rfl

/-- Projection of a snapshot's success counter onto the collector state. -/
@[simp] theorem snapshot_SuccessRequests (m : MetricsState) :
    m.snapshot.SuccessRequests = m.successRequests := rfl

/-- Projection of a snapshot's error counter onto the collector state. -/
@[simp] theorem snapshot_ErrorRequests (m : MetricsState) :
    m.snapshot.ErrorRequests = m.errorRequests := rfl

/-- C1, counterexample: after the single recording operation `RecordError 0`
(the transport-failure path), the snapshot reports `TotalRequests = 0` but
`SuccessRequests + ErrorRequests = 1`, so the claimed invariant
`TotalRequests = SuccessRequests + ErrorRequests` fails for this
interleaving: `RecordError` increments the error counter without touching
the total. -/
theorem C1_counterexample :
    ¬ ((applyOps (MetricsState.new 0) [Op.recordError 0]).snapshot.TotalRequests
        = (applyOps (MetricsState.new 0) [Op.recordError 0]).snapshot.SuccessRequests
          + (applyOps (MetricsState.new 0) [Op.recordError 0]).snapshot.ErrorRequests) := by
  decide

/-- C1, amended: for every sequence of recording operations, every snapshot
taken afterwards satisfies `TotalRequests + (number of RecordError calls) =
SuccessRequests + ErrorRequests`; in particular the originally claimed
equality holds exactly for sequences that contain no `RecordError` call. -/
theorem C1_balance (ops : List Op) :
    (applyOps (MetricsState.new 0) ops).snapshot.TotalRequests + numRecordError ops
      = (applyOps (MetricsState.new 0) ops).snapshot.SuccessRequests
        + (applyOps (MetricsState.new 0) ops).snapshot.ErrorRequests := by
  have h := applyOps_balance ops (MetricsState.new 0)
  simp only [snapshot_TotalRequests, snapshot_SuccessRequests, snapshot_ErrorRequests]
  have hnew : (MetricsState.new 0).successRequests + (MetricsState.new 0).errorRequests
      - (MetricsState.new 0).totalRequests = 0 := rfl
  omega

/-- C5: one `RecordRequest` call increments the total by exactly one,
increments the success counter exactly when `200 ≤ statusCode < 400`,
otherwise increments the error counter and the per-status map entry of that
status code (and no other entry), and appends the latency to the latency
sequence. -/
theorem C5_RecordRequest_effect (m : MetricsState) (l c t : Int) :
    (m.RecordRequest l c t).totalRequests = m.totalRequests + 1 ∧
    (m.RecordRequest l c t).successRequests
      = m.successRequests + (if 200 ≤ c ∧ c < 400 then 1 else 0) ∧
    (m.RecordRequest l c t).errorRequests
      = m.errorRequests + (if 200 ≤ c ∧ c < 400 then 0 else 1) ∧
    (∀ k, (m.RecordRequest l c t).errorsByStatus k
      = m.errorsByStatus k + (if ¬(200 ≤ c ∧ c < 400) ∧ k = c then 1 else 0)) ∧
    (m.RecordRequest l c t).latencies = m.latencies ++ [l] :=
  ⟨RecordRequest_totalRequests m l c t, RecordRequest_successRequests m l c t,
   RecordRequest_errorRequests m l c t,
   fun k => RecordRequest_errorsByStatus m l c t k,
   RecordRequest_latencies m l c t⟩

/-- Metrics effect of the Go `makeRequest` failure paths (runner.go): both
the request-construction error branch and the transport error branch call
`r.metrics.RecordError(0)` and return before `RecordRequest` is reached, so
no latency is recorded. -/
def makeRequestFailure (m : MetricsState) : MetricsState :=
  m.RecordError 0

/-- C6: the executor's failure path records exactly one error with sentinel
status 0 — the error counter and the status-0 map entry grow by one (no
other map entry moves) — while the total counter, the success counter and
the latency sequence are left unchanged. -/
theorem C6_failure_frame (m : MetricsState) :
    (makeRequestFailure m).errorRequests = m.errorRequests + 1 ∧
    (∀ k, (makeRequestFailure m).errorsByStatus k
      = m.errorsByStatus k + (if k = 0 then 1 else 0)) ∧
    (makeRequestFailure m).totalRequests = m.totalRequests ∧
    (makeRequestFailure m).successRequests = m.successRequests ∧
    (makeRequestFailure m).latencies = m.latencies :=
  ⟨rfl, fun k => RecordError_errorsByStatus m 0 k, rfl, rfl, rfl⟩

/-- C4: a snapshot of a freshly created collector (any creation time) and a
snapshot of a just-reset collector (any prior state, any reset time) report
zero total/success/error counts, an error rate of exactly zero (the guarded
division is never taken, since `total > 0` fails), and zeros for all latency
percentiles, min, max and mean — no undefined values. -/
theorem C4_empty_snapshot (t t' : Int) (m : MetricsState) :
    ((MetricsState.new t).snapshot.TotalRequests = 0 ∧
     (MetricsState.new t).snapshot.SuccessRequests = 0 ∧
     (MetricsState.new t).snapshot.ErrorRequests = 0 ∧
     (MetricsState.new t).snapshot.ErrorRate = 0 ∧
     (MetricsState.new t).snapshot.LatencyP50 = 0 ∧
     (MetricsState.new t).snapshot.LatencyP95 = 0 ∧
     (MetricsState.new t).snapshot.LatencyP99 = 0 ∧
     (MetricsState.new t).snapshot.LatencyP999 = 0 ∧
     (MetricsState.new t).snapshot.LatencyMin = 0 ∧
     (MetricsState.new t).snapshot.LatencyMax = 0 ∧
     (MetricsState.new t).snapshot.LatencyMean = 0) ∧
    ((m.Reset t').snapshot.TotalRequests = 0 ∧
     (m.Reset t').snapshot.SuccessRequests = 0 ∧
     (m.Reset t').snapshot.ErrorRequests = 0 ∧
     (m.Reset t').snapshot.ErrorRate = 0 ∧
     (m.Reset t').snapshot.LatencyP50 = 0 ∧
     (m.Reset t').snapshot.LatencyP95 = 0 ∧
     (m.Reset t').snapshot.LatencyP99 = 0 ∧
     (m.Reset t').snapshot.LatencyP999 = 0 ∧
     (m.Reset t').snapshot.LatencyMin = 0 ∧
     (m.Reset t').snapshot.LatencyMax = 0 ∧
     (m.Reset t').snapshot.LatencyMean = 0) :=
  ⟨⟨rfl, rfl, rfl, rfl, rfl, rfl, rfl, rfl, rfl, rfl, rfl⟩,
   ⟨rfl, rfl, rfl, rfl, rfl, rfl, rfl, rfl, rfl, rfl, rfl⟩⟩

/-- Nearest-rank percentile exactly as the spec words it: the p-th percentile
of an ascending-sorted list is `sorted[floor(len * p)]`, with the index
clamped to the last valid index.  Stated from the spec's words, separately
from the code's `percentile`, so the two can be compared. -/
def nearestRankSpec (sorted : List Int) (p : ℚ) : Int :=
  sorted.getD (min (⌊(sorted.length : ℚ) * p⌋).toNat (sorted.length - 1)) 0

/-- On non-empty input the code's `percentile` computes exactly the spec's
nearest-rank formula: the `if index ≥ len` guard is the same clamping as
`min index (len - 1)`. -/
theorem percentile_eq_nearestRankSpec (sorted : List Int) (p : ℚ) (h : sorted ≠ []) :
    percentile sorted p = nearestRankSpec sorted p := by
  have hlen : ¬ sorted.length = 0 := by simpa [List.length_eq_zero] using h
  simp only [percentile, nearestRankSpec]
  rw [if_neg hlen]
  by_cases hc : sorted.length ≤ (⌊(sorted.length : ℚ) * p⌋).toNat
  · rw [if_pos hc]
    congr 1
    omega
  · rw [if_neg hc]
    congr 1
    omega

/-- Five requests recorded through `RecordRequest` with latencies
10, 20, 30, 40, 50 (think milliseconds), all with status 200, at time 0. -/
def demoState : MetricsState :=
  applyOps (MetricsState.new 0)
    [Op.recordRequest 10 200 0, Op.recordRequest 20 200 0, Op.recordRequest 30 200 0,
     Op.recordRequest 40 200 0, Op.recordRequest 50 200 0]

/-- C3: on any collector with a non-empty latency record, each reported
percentile (p ∈ {0.50, 0.95, 0.99, 0.999}) equals `sorted[floor(len·p)]` of
the ascending-sorted latency list with the index clamped to the last valid
index; the list the index is taken in is indeed the recorded latencies
sorted ascending (sorted, and a permutation of the record); and in
particular for recorded latencies 10,20,30,40,50 the 50th percentile is 30
and the 99th is 50 (clamped). -/
theorem C3_percentile_spec (m : MetricsState) (h : m.latencies ≠ []) :
    m.snapshot.LatencyP50
      = nearestRankSpec (List.insertionSort (fun a b : Int => a ≤ b) m.latencies) (1 / 2) ∧
    m.snapshot.LatencyP95
      = nearestRankSpec (List.insertionSort (fun a b : Int => a ≤ b) m.latencies) (19 / 20) ∧
    m.snapshot.LatencyP99
      = nearestRankSpec (List.insertionSort (fun a b : Int => a ≤ b) m.latencies) (99 / 100) ∧
    m.snapshot.LatencyP999
      = nearestRankSpec (List.insertionSort (fun a b : Int => a ≤ b) m.latencies) (999 / 1000) ∧
    List.Sorted (fun a b : Int => a ≤ b) (List.insertionSort (fun a b : Int => a ≤ b) m.latencies) ∧
    (List.insertionSort (fun a b : Int => a ≤ b) m.latencies).Perm m.latencies ∧
    demoState.snapshot.LatencyP50 = 30 ∧ demoState.snapshot.LatencyP99 = 50 := by
  have hpos : 0 < m.latencies.length := List.length_pos.mpr h
  have hperm := List.perm_insertionSort (fun a b : Int => a ≤ b) m.latencies
  have hsne : List.insertionSort (fun a b : Int => a ≤ b) m.latencies ≠ [] := by
    intro hnil
    rw [hnil] at hperm
    exact h hperm.nil_eq.symm
  have hdlat : demoState.latencies = [10, 20, 30, 40, 50] := by decide
  have hdsort : List.insertionSort (fun a b : Int => a ≤ b) [10, 20, 30, 40, 50]
      = [10, 20, 30, 40, 50] := by decide
  have hdemo50 : demoState.snapshot.LatencyP50 = 30 := by
    simp only [MetricsState.snapshot, hdlat, hdsort]
    rw [if_pos (by norm_num)]
    rw [percentile]
    norm_num
    rfl
  have hdemo99 : demoState.snapshot.LatencyP99 = 50 := by
    simp only [MetricsState.snapshot, hdlat, hdsort]
    rw [if_pos (by norm_num)]
    rw [percentile]
    norm_num
    rfl
  refine ⟨?_, ?_, ?_, ?_, List.sorted_insertionSort _ _, hperm, hdemo50, hdemo99⟩ <;>
    · simp only [MetricsState.snapshot]
      rw [if_pos hpos]
      exact percentile_eq_nearestRankSpec _ _ hsne

/-- Witness for C3 at the concrete recorded sequence 10,20,30,40,50: its
latency record is non-empty and its reported P50 and P99 are 30 and 50. -/
theorem C3_percentile_spec_witness :
    demoState.snapshot.LatencyP50 = 30 ∧ demoState.snapshot.LatencyP99 = 50 := by
  have h := C3_percentile_spec demoState (by decide)
  exact ⟨h.2.2.2.2.2.2.1, h.2.2.2.2.2.2.2⟩

/-- Go `unicode.IsSpace` restricted to the Latin-1 range actually reachable
from configuration strings: tab, newline, vertical tab, form feed, carriage
return, space, NEL (U+0085) and NBSP (U+00A0). -/
def goIsSpace (c : Char) : Bool :=
  c == ' ' || c == '\t' || c == '\n' || c == '\r' ||
    c.toNat == 11 || c.toNat == 12 || c.toNat == 133 || c.toNat == 160

/-- Go `strings.TrimSpace` on a character list: drop leading and trailing
white space. -/
def trimSpaceL (l : List Char) : List Char :=
  ((l.dropWhile goIsSpace).reverse.dropWhile goIsSpace).reverse

/-- Go `strings.ToUpper` per character (ASCII letters; method strings are
ASCII). -/
def goToUpper (c : Char) : Char :=
  if 'a' ≤ c ∧ c ≤ 'z' then Char.ofNat (c.toNat - 32) else c

/-- Go `strings.SplitN(s, ":", 2)`: `none` when there is no colon (Go returns
a one-element slice, which `ParseEndpoint` rejects), otherwise the part
before the first colon and everything after it. -/
def splitN2Colon : List Char → Option (List Char × List Char)
  | [] => none
  | c :: rest =>
    if c = ':' then some ([], rest)
    else
      match splitN2Colon rest with
      | none => none
      | some (a, b) => some (c :: a, b)

/-- Chars before the first colon (used to characterise `splitN2Colon`). -/
def methodPart (l : List Char) : List Char := l.takeWhile (fun c => c != ':')

/-- Chars after the first colon (used to characterise `splitN2Colon`). -/
def pathPart (l : List Char) : List Char := (l.dropWhile (fun c => c != ':')).drop 1

/-- Whether `pat` occurs at the head of `hay`. -/
def startsWith : List Char → List Char → Bool
  | _, [] => true
  | [], _ :: _ => false
  | c :: cs, d :: ds => c == d && startsWith cs ds

/-- Go `strings.Contains` on character lists. -/
def containsSub : List Char → List Char → Bool
  | [], pat => pat.isEmpty
  | hay@(_ :: rest), pat => startsWith hay pat || containsSub rest pat

/-- Go struct `Endpoint` (runner.go): a parsed test target. -/
structure Endpoint where
  Method : String
  Path : String
  Body : String
  HasDynamicID : Bool
deriving DecidableEq

/-- The five verbs accepted by `ParseEndpoint`'s method switch. -/
def isValidMethod (m : String) : Bool :=
  m == "GET" || m == "POST" || m == "PUT" || m == "PATCH" || m == "DELETE"

/-- The fixed default JSON body attached to POST/PUT/PATCH endpoints. -/
def defaultBody : String := "\x7b\"name\":\"test\",\"value\":\"test\"\x7d"

/-- Go `ParseEndpoint` (runner.go): split on the first colon, trim both
parts, upper-case the method, check it against the five verbs, detect the
dynamic-ID placeholders in the path, and attach the default body for
mutating verbs. -/
def ParseEndpoint (s : String) : Except String Endpoint :=
  match splitN2Colon s.toList with
  | none => .error ("invalid endpoint format: " ++ s ++ " (expected METHOD:PATH)")
  | some (rawMethod, rawPath) =>
    let method := ((trimSpaceL rawMethod).map goToUpper).asString
    let path := (trimSpaceL rawPath).asString
    if isValidMethod method then
      let hasDynamicID := containsSub path.toList "{id}".toList
        || containsSub path.toList "{random_id}".toList
        || containsSub path.toList "{delete_id}".toList
      let body :=
        if method == "POST" || method == "PUT" || method == "PATCH" then defaultBody else ""
      .ok ⟨method, path, body, hasDynamicID⟩
    else .error ("invalid HTTP method: " ++ method)

/-- Whether parsing succeeded. -/
def parseOk (e : Except String Endpoint) : Bool :=
  match e with
  | .ok _ => true
  | .error _ => false

/-- Characterisation of `splitN2Colon` by `takeWhile`/`dropWhile`: it
succeeds exactly when the list contains a colon, returning the part before
and the part after the first colon. -/
theorem splitN2Colon_eq (l : List Char) :
    splitN2Colon l
      = if l.contains ':' then some (methodPart l, pathPart l) else none := by
  induction l with
  | nil => rfl
  | cons c rest ih =>
    by_cases hc : c = ':'
    · subst hc
      simp [splitN2Colon, methodPart, pathPart]
    · have hcb : (c == ':') = false := by simpa using hc
      simp only [splitN2Colon, List.contains_cons, hcb, Bool.false_or, if_neg hc, ih,
        methodPart, pathPart, List.takeWhile_cons, List.dropWhile_cons, bne_iff_ne,
        ne_eq, hc, not_false_eq_true, if_true]
      by_cases hr : ':' ∈ rest <;> simp [hr, Ne.symm hc]

/-- The upper-cased, trimmed method part of an endpoint string. -/
def upperMethodOf (s : String) : String :=
  ((trimSpaceL (methodPart s.toList)).map goToUpper).asString

/-- The trimmed path part of an endpoint string. -/
def trimmedPathOf (s : String) : String :=
  (trimSpaceL (pathPart s.toList)).asString

/-- The body `ParseEndpoint` attaches for a given (validated) method. -/
def bodyFor (method : String) : String :=
  if method == "POST" || method == "PUT" || method == "PATCH" then defaultBody else ""

/-- The dynamic-ID flag `ParseEndpoint` computes for a given path. -/
def dynFlagOf (path : String) : Bool :=
  containsSub path.toList "{id}".toList
    || containsSub path.toList "{random_id}".toList
    || containsSub path.toList "{delete_id}".toList

/-- Parsing succeeds exactly when the input has a colon and the upper-cased
trimmed method part is one of the five verbs. -/
theorem parse_ok_iff (s : String) :
    parseOk (ParseEndpoint s) = true ↔
      (s.toList.contains ':' = true ∧ isValidMethod (upperMethodOf s) = true) := by
  unfold ParseEndpoint upperMethodOf
  rw [splitN2Colon_eq]
  by_cases hcol : ':' ∈ s.toList
  · have hcolb : s.toList.contains ':' = true := by simpa using hcol
    rw [if_pos hcolb]
    by_cases hvm :
        isValidMethod ((trimSpaceL (methodPart s.toList)).map goToUpper).asString = true
    · simp only [String.toList] at hvm
      simp [parseOk, hvm]
      exact hcol
    · simp only [String.toList] at hvm
      simp [parseOk, hvm]
  · have hcolb : ¬ s.toList.contains ':' = true := by simpa using hcol
    rw [if_neg hcolb]
    simp [parseOk]
    intro hmem
    exact absurd hmem hcol

/-- On success `ParseEndpoint` returns the upper-cased trimmed method, the
trimmed path, the default body exactly for mutating verbs, and the
dynamic-ID flag of the path. -/
theorem parse_ok_result (s : String) (hcol : s.toList.contains ':' = true)
    (hvm : isValidMethod (upperMethodOf s) = true) :
    ParseEndpoint s
      = .ok ⟨upperMethodOf s, trimmedPathOf s, bodyFor (upperMethodOf s),
             dynFlagOf (trimmedPathOf s)⟩ := by
  unfold ParseEndpoint
  rw [splitN2Colon_eq, if_pos hcol]
  unfold upperMethodOf at hvm
  simp only [hvm, if_true, reduceIte]
  rfl

/-- C2, counterexample: `ParseEndpoint "GET:"` succeeds with an empty path,
although the claim requires the path part to be non-empty after trimming
for parsing to succeed — the Go code never checks the path for
emptiness. -/
theorem C2_counterexample :
    ParseEndpoint "GET:" = .ok ⟨"GET", "", "", false⟩ := by rfl

/-- C2, amended: `ParseEndpoint s` succeeds exactly when `s` contains a
colon and the upper-cased whitespace-trimmed part before the first colon is
one of GET/POST/PUT/PATCH/DELETE (the path part is trimmed but may be
empty; the method part is rejected when empty only because an empty string
is not a recognized verb); on success it returns that upper-cased method,
the trimmed path, and the fixed body for POST/PUT/PATCH and an empty body
for GET/DELETE; in particular `GET:/users/1` parses to
`{GET, "/users/1", ""}`, `POST:/items` gets the non-empty default body, and
`BAD` and `FOO:/x` both fail. -/
theorem C2_parse_spec :
    (∀ s : String,
      parseOk (ParseEndpoint s) = true ↔
        (s.toList.contains ':' = true ∧ isValidMethod (upperMethodOf s) = true)) ∧
    (∀ s : String, s.toList.contains ':' = true →
      isValidMethod (upperMethodOf s) = true →
      ParseEndpoint s
        = .ok ⟨upperMethodOf s, trimmedPathOf s, bodyFor (upperMethodOf s),
               dynFlagOf (trimmedPathOf s)⟩) ∧
    ParseEndpoint "GET:/users/1" = .ok ⟨"GET", "/users/1", "", false⟩ ∧
    ParseEndpoint "POST:/items" = .ok ⟨"POST", "/items", defaultBody, false⟩ ∧
    defaultBody ≠ "" ∧
    parseOk (ParseEndpoint "BAD") = false ∧
    parseOk (ParseEndpoint "FOO:/x") = false :=
  ⟨parse_ok_iff, fun s h1 h2 => parse_ok_result s h1 h2,
   by rfl, by rfl, by decide, by rfl, by rfl⟩

/-- Witness for C2 at the concrete input "POST:/items": the hypotheses of
both universally quantified parts hold there and yield the expected parsed
endpoint. -/
theorem C2_parse_spec_witness :
    parseOk (ParseEndpoint "POST:/items") = true ∧
    ParseEndpoint "POST:/items"
      = .ok ⟨upperMethodOf "POST:/items", trimmedPathOf "POST:/items",
             bodyFor (upperMethodOf "POST:/items"),
             dynFlagOf (trimmedPathOf "POST:/items")⟩ := by
  have h := C2_parse_spec
  exact ⟨(h.1 "POST:/items").mpr ⟨by rfl, by rfl⟩, h.2.1 "POST:/items" (by rfl) (by rfl)⟩

/-- Number of burst windows `runSpikes` attempts within a run of the given
duration (here in seconds), driven by a Go ticker of the given period: the
ticker delivers its first tick one full period after creation and then
every period, so the bursts begin at the positive multiples of the period
that fall strictly before the run deadline.  Because each burst occupies
only the spike duration, which is half the period, the controller is always
back at its select before the next tick, so no tick is missed. -/
def numBursts (duration period : Nat) : Nat :=
  if period = 0 then 0 else (duration - 1) / period

/-- Start times of the burst windows of `runSpikes` (runner.go) for a run of
the given duration with the given spike duration: the ticker period is
`spikeDuration * 2`, and bursts begin at its positive multiples before the
deadline. -/
def burstStarts (duration spikeDur : Nat) : List Nat :=
  (List.range (numBursts duration (spikeDur * 2))).map (fun i => (i + 1) * (spikeDur * 2))

/-- Length of the burst window starting at `start`: bounded by the spike
duration (the per-burst context timeout) and by the run deadline (the outer
context), whichever fires first. -/
def burstLen (duration spikeDur start : Nat) : Nat :=
  min spikeDur (duration - start)

/-- Per-burst transient worker count of `runSpikes`: `concurrency * 5`. -/
def spikeWorkerCount (concurrent : Nat) : Nat :=
  concurrent * 5

/-- C7, counterexample: with total duration 10s and spike duration 2s the
burst windows do not begin at t≈0 and t≈4s — a Go ticker with period
`2 × spikeDuration = 4s` delivers its first tick only at t=4s, so the
bursts begin at 4s and 8s. -/
theorem C7_counterexample : burstStarts 10 2 ≠ [0, 4] := by decide

/-- C7, amended: in spike mode with total duration 10s and spike duration
2s, exactly two burst windows are attempted, beginning at t≈4s and t≈8s
(the ticker period is 2 × spike duration and its first tick arrives one
full period after start), each bounded to at most 2s of elevated-rate
traffic, issued by `concurrency * 5` transient workers per burst. -/
theorem C7_spike_schedule :
    burstStarts 10 2 = [4, 8] ∧
    (burstStarts 10 2).length = 2 ∧
    (burstStarts 10 2).map (burstLen 10 2) = [2, 2] ∧
    (∀ c : Nat, spikeWorkerCount c = c * 5) :=
  ⟨by decide, by decide, by decide, fun _ => rfl⟩

/-- Go `worker` (runner.go) starting from a given round-robin index: one
endpoint dispatched per pacing tick; an empty endpoint list dispatches
nothing (the Go loop `continue`s without touching the index). -/
def workerFrom (endpoints : List Endpoint) (index : Nat) : Nat → List Endpoint
  | 0 => []
  | ticks + 1 =>
    if endpoints.isEmpty then workerFrom endpoints index ticks
    else
      endpoints.getD (index % endpoints.length) ⟨"", "", "", false⟩
        :: workerFrom endpoints (index + 1) ticks

/-- Go `worker` starts with `index = 0`. -/
def worker (endpoints : List Endpoint) (ticks : Nat) : List Endpoint :=
  workerFrom endpoints 0 ticks

/-- Closed form of the worker's dispatch sequence on a non-empty endpoint
list: the k-th dispatch after starting at `index` uses the endpoint at
position `(index + k) mod length`. -/
theorem workerFrom_eq (eps : List Endpoint) (h : eps ≠ []) :
    ∀ n i : Nat, workerFrom eps i n
      = (List.range n).map
          (fun k => eps.getD ((i + k) % eps.length) ⟨"", "", "", false⟩) := by
  intro n
  induction n with
  | zero => intro i; rfl
  | succ n ih =>
    intro i
    have hne : ¬ eps.isEmpty = true := by simp [h]
    rw [workerFrom, if_neg hne, ih (i + 1)]
    rw [List.range_succ_eq_map, List.map_cons, List.map_map]
    have htail : List.map
          (fun k => eps.getD ((i + 1 + k) % eps.length) ⟨"", "", "", false⟩)
          (List.range n)
        = List.map
          ((fun k => eps.getD ((i + k) % eps.length) ⟨"", "", "", false⟩) ∘ Nat.succ)
          (List.range n) := by
      refine List.map_congr_left ?_
      intro a _
      show eps.getD ((i + 1 + a) % eps.length) ⟨"", "", "", false⟩
        = eps.getD ((i + (a + 1)) % eps.length) ⟨"", "", "", false⟩
      have h1 : i + 1 + a = i + (a + 1) := by omega
      rw [h1]
    rw [htail]
    simp

/-- C8: with endpoint list [A,B,C] and four pacing ticks, one worker
dispatches exactly A,B,C,A; in general, on any non-empty endpoint list, the
k-th dispatch (k previous dispatches) uses the endpoint at position
`k mod length` — deterministic round-robin. -/
theorem C8_round_robin (a b c : Endpoint) (eps : List Endpoint) (n : Nat) (h : eps ≠ []) :
    worker [a, b, c] 4 = [a, b, c, a] ∧
    worker eps n
      = (List.range n).map (fun k => eps.getD (k % eps.length) ⟨"", "", "", false⟩) := by
  constructor
  · have h0 := workerFrom_eq [a, b, c] (by simp) 4 0
    show workerFrom [a, b, c] 0 4 = [a, b, c, a]
    rw [h0, show List.range 4 = [0, 1, 2, 3] from rfl]
    simp [List.getD]
  · have hw := workerFrom_eq eps h n 0
    simpa [worker] using hw

/-- Sample endpoint A for the C8 witness. -/
def epA : Endpoint := ⟨"GET", "/a", "", false⟩

/-- Sample endpoint B for the C8 witness. -/
def epB : Endpoint := ⟨"GET", "/b", "", false⟩

/-- Sample endpoint C for the C8 witness. -/
def epC : Endpoint := ⟨"GET", "/c", "", false⟩

/-- Witness for C8 at concrete endpoints: the [A,B,C] schedule over four
ticks and the general closed form at the singleton list [A] over two
ticks. -/
theorem C8_round_robin_witness :
    worker [epA, epB, epC] 4 = [epA, epB, epC, epA] ∧
    worker [epA] 2
      = (List.range 2).map (fun k => [epA].getD (k % [epA].length) ⟨"", "", "", false⟩) := by
  have h := C8_round_robin epA epB epC [epA] 2 (by decide)
  exact ⟨h.1, h.2⟩

/-- The configuration fields consumed by the load and endurance run modes
(Go struct `Config`, internal/config). -/
structure Config where
  Endpoints : List String
  TargetRPS : Int
  Concurrent : Nat
  Duration : Int

/-- Go `(*Runner).parseEndpoints` (runner.go): parse every configured
endpoint string, aborting at the first parse failure. -/
def parseEndpoints : List String → Except String (List Endpoint)
  | [] => .ok []
  | s :: rest =>
    match ParseEndpoint s with
    | .error e => .error e
    | .ok ep =>
      match parseEndpoints rest with
      | .error e => .error e
      | .ok eps => .ok (ep :: eps)

/-- Everything a load-shape run mode decides before spawning its workers:
parsed endpoints, pacing interval (`time.Second / targetRPS`, truncated
64-bit division, in nanoseconds), worker count, and the duration bound put
on the run context. -/
structure RunPlan where
  endpoints : List Endpoint
  pacingInterval : Int
  workerCount : Nat
  durationBound : Int
deriving DecidableEq

/-- Go `(*Runner).runLoadTest` (runner.go): parse the endpoints (wrapping a
failure), derive the pacing interval from target RPS, and run `Concurrent`
workers under a `Duration` timeout. -/
def runLoadTest (cfg : Config) : Except String RunPlan :=
  match parseEndpoints cfg.Endpoints with
  | .error e => .error ("failed to parse endpoints: " ++ e)
  | .ok eps => .ok ⟨eps, Int.tdiv 1000000000 cfg.TargetRPS, cfg.Concurrent, cfg.Duration⟩

/-- Go `(*Runner).runEnduranceTest` (runner.go), transcribed from its own
body: parse the endpoints (wrapping a failure), derive the pacing interval
from target RPS, and run `Concurrent` workers under a `Duration` timeout. -/
def runEnduranceTest (cfg : Config) : Except String RunPlan :=
  match parseEndpoints cfg.Endpoints with
  | .error e => .error ("failed to parse endpoints: " ++ e)
  | .ok eps => .ok ⟨eps, Int.tdiv 1000000000 cfg.TargetRPS, cfg.Concurrent, cfg.Duration⟩

/-- C9: for every configuration, the endurance mode performs exactly the
same steps as the load mode — same endpoint parsing (including the error
wrapping), same pacing interval `1s / targetRPS`, same worker count, same
duration bound; the two transcribed definitions are definitionally
equal. -/
theorem C9_endurance_eq_load (cfg : Config) :
    runEnduranceTest cfg = runLoadTest cfg := rfl

/-- Go `(*Runner).getRandomID` (runner.go) with the shared `rand.Rand`
abstracted as an oracle `rng`, where `rng n` models `rng.Intn(n)` and is
assumed to lie in `[0, n)` for positive `n`. -/
def getRandomID (rng : Int → Int) (datasetSize : Int) : Int :=
  if datasetSize ≤ 1000 then
    if datasetSize ≤ 0 then 1
    else rng datasetSize + 1
  else
    rng (datasetSize - 1000) + 1

/-- Go `(*Runner).getDeleteID` (runner.go) with the same `rng` oracle. -/
def getDeleteID (rng : Int → Int) (datasetSize : Int) : Int :=
  if datasetSize ≤ 1000 then
    if datasetSize ≤ 0 then 1
    else datasetSize
  else
    datasetSize - 1000 + rng 1000 + 1

/-- C10: for any rng oracle that behaves like `Intn` — for every sequence of
draws — when `datasetSize > 1000` the random ID lies in
`[1, datasetSize - 1000]` and the delete ID in `[datasetSize - 999,
datasetSize]`, so the two ranges substituted for the `{id}`/`{random_id}`
and `{delete_id}` placeholders are disjoint (every random ID is strictly
below every delete ID); when `0 < datasetSize ≤ 1000` the random ID lies in
`[1, datasetSize]` and the delete ID is `datasetSize`; and when
`datasetSize ≤ 0` both are 1. -/
theorem C10_id_ranges (rng : Int → Int)
    (hr : ∀ n : Int, 0 < n → 0 ≤ rng n ∧ rng n < n) (ds : Int) :
    (1000 < ds →
      (1 ≤ getRandomID rng ds ∧ getRandomID rng ds ≤ ds - 1000) ∧
      (ds - 999 ≤ getDeleteID rng ds ∧ getDeleteID rng ds ≤ ds) ∧
      getRandomID rng ds < getDeleteID rng ds) ∧
    (0 < ds → ds ≤ 1000 →
      (1 ≤ getRandomID rng ds ∧ getRandomID rng ds ≤ ds) ∧ getDeleteID rng ds = ds) ∧
    (ds ≤ 0 → getRandomID rng ds = 1 ∧ getDeleteID rng ds = 1) := by
  refine ⟨?_, ?_, ?_⟩
  · intro h
    have h1 : ¬ ds ≤ 1000 := by omega
    have hs := hr (ds - 1000) (by omega)
    have hd := hr 1000 (by omega)
    unfold getRandomID getDeleteID
    rw [if_neg h1, if_neg h1]
    omega
  · intro h0 h1
    have h2 : ¬ ds ≤ 0 := by omega
    have hs := hr ds h0
    unfold getRandomID getDeleteID
    rw [if_pos h1, if_pos h1, if_neg h2, if_neg h2]
    omega
  · intro h0
    have h1 : ds ≤ 1000 := by omega
    simp [getRandomID, getDeleteID, h0, h1]

/-- Witness for C10 with the constant-zero oracle at `datasetSize = 1500`:
the random ID lands in `[1, 500]`, the delete ID in `[501, 1500]`, and the
former is strictly below the latter. -/
theorem C10_id_ranges_witness :
    (1 ≤ getRandomID (fun _ => 0) 1500 ∧ getRandomID (fun _ => 0) 1500 ≤ 1500 - 1000) ∧
    ((1500 : Int) - 999 ≤ getDeleteID (fun _ => 0) 1500 ∧
      getDeleteID (fun _ => 0) 1500 ≤ 1500) ∧
    getRandomID (fun _ => 0) 1500 < getDeleteID (fun _ => 0) 1500 :=
  (C10_id_ranges (fun _ => 0) (fun _ hn => ⟨le_refl 0, hn⟩) 1500).1 (by norm_num)
